import Mathlib

/-!
# unify-mail: the `POST /send` welcome-email handler

A shallow embedding of `src/index.js`: the response helpers `sendSuccess` and
`sendError`, the transport-error classifier `mapEmailError`, the token helper
`generateToken`, the `POST /send` route handler and the global error
middleware, followed by the properties of the handler.

Conventions of the embedding.

* JavaScript values that the handler does not produce itself (the value a
  delivery call resolves with, the value it rejects with) are arbitrary
  `JSValue`s.
* The request body is what `express.json()` parsed: the handler reads the keys
  `to`, `validationUrl` and `validationurl`, and each may hold any JSON value
  or be absent (`undefined`).
* A template literal applies ToString to what it interpolates; ToString can
  throw, and then so does the handler.
* Effects are explicit. A `World` records what was written on `res`, the
  calls of `transporter.sendMail` and the number of `Math.random` draws; the
  handler maps a world to a world, together with the exception that escaped
  it, if any.
* The host is a parameter: `process.env`, the text of the random draws, the
  decimal text of a finite number and the behaviour of the delivery call.
-/

namespace UnifyMail

/-! ## JavaScript values -/

/-- A JavaScript number as far as this program can observe it: it is tested for
truthiness and serialised, never computed with. A finite value is
`(-1)^negative * significand * 2^exponent`. -/
inductive JSNumber where
  | nan
  | infinite (negative : Bool)
  | finite (negative : Bool) (significand : Nat) (exponent : Int)

/-- A JavaScript value: the primitives, arrays, and objects seen through their
properties (own or inherited, as a property read sees them). -/
inductive JSValue where
  | undefined
  | null
  | bool (b : Bool)
  | num (x : JSNumber)
  | str (s : String)
  | arr (items : List JSValue)
  | obj (props : List (String × JSValue))

instance : Inhabited JSValue := ⟨.undefined⟩

/-- The value of the first property named `key`, if any. -/
def lookupProp (key : String) : List (String × JSValue) → Option JSValue
  | [] => none
  | (k, v) :: rest => if k = key then some v else lookupProp key rest

/-- ToBoolean: `undefined`, `null`, `false`, `0`, `-0`, `NaN` and `""` are falsy,
everything else is truthy. -/
def JSValue.truthy : JSValue → Bool
  | .undefined => false
  | .null => false
  | .bool b => b
  | .num .nan => false
  | .num (.finite _ 0 _) => false
  | .num _ => true
  | .str s => s ≠ ""
  | .arr _ => true
  | .obj _ => true

/-- The `TypeError` raised by a property read on `undefined` or `null`. -/
def typeError (message : String) : JSValue :=
  .obj [("name", .str "TypeError"), ("message", .str message)]

/-- The property read `v.key`, for the keys the program reads (`code`,
`message`, `messageId`): it throws on `undefined` and `null`, looks the key up
in an object, and is `undefined` on the other primitives and on arrays, whose
prototypes define none of these keys. -/
def getMember (v : JSValue) (key : String) : Except JSValue JSValue :=
  match v with
  | .undefined => .error (typeError ("Cannot read properties of undefined (reading '" ++ key ++ "')"))
  | .null => .error (typeError ("Cannot read properties of null (reading '" ++ key ++ "')"))
  | .obj props => .ok ((lookupProp key props).getD .undefined)
  | _ => .ok .undefined

/-- The expression `v && v.key`: `v` itself when `v` is falsy, else the
property read. -/
def andMember (v : JSValue) (key : String) : Except JSValue JSValue :=
  if v.truthy then getMember v key else .ok v

/-- Strict equality `v === s` against a string literal. -/
def strictEqString (v : JSValue) (s : String) : Bool :=
  match v with
  | .str t => t = s
  | _ => false

/-- Reading a key of a JSON document: the value stored under `key`, and
`undefined` when the document is not an object or has no such key. -/
def JSValue.get (v : JSValue) (key : String) : JSValue :=
  match v with
  | .obj props => (lookupProp key props).getD .undefined
  | _ => .undefined

/-- Whether a JSON document is an object with a property named `key`. -/
def JSValue.hasKey (v : JSValue) (key : String) : Bool :=
  match v with
  | .obj props => (lookupProp key props).isSome
  | _ => false

/-! ## JSON serialisation, as performed by `res.json` -/

mutual
/-- The JSON document that `JSON.stringify` writes for a value: non-finite
numbers become `null`, `-0` becomes `0`, array holes of `undefined` become
`null`, and object properties whose value is `undefined` are left out. -/
def toJSON : JSValue → JSValue
  | .arr items => .arr (toJSONItems items)
  | .obj props => .obj (toJSONProps props)
  | .num .nan => .null
  | .num (.infinite _) => .null
  | .num (.finite _ 0 e) => .num (.finite false 0 e)
  | v => v
/-- Serialisation of the elements of an array. -/
def toJSONItems : List JSValue → List JSValue
  | [] => []
  | .undefined :: rest => .null :: toJSONItems rest
  | v :: rest => toJSON v :: toJSONItems rest
/-- Serialisation of the properties of an object. -/
def toJSONProps : List (String × JSValue) → List (String × JSValue)
  | [] => []
  | (_, .undefined) :: rest => toJSONProps rest
  | (k, v) :: rest => (k, toJSON v) :: toJSONProps rest
end

/-! ## ToString, as applied by a template literal -/

/-- Number::toString: the fixed texts of `NaN`, the infinities and zero, and
the runtime's decimal text `format` of a finite non-zero number. -/
def numberToString (format : Bool → Nat → Int → String) : JSNumber → String
  | .nan => "NaN"
  | .infinite false => "Infinity"
  | .infinite true => "-Infinity"
  | .finite _ 0 _ => "0"
  | .finite negative significand exponent => format negative significand exponent

mutual
/-- ToString of a value parsed from JSON. A string is itself; an array is its
elements joined by commas; an object without a `toString` key of its own is
"[object Object]" (the inherited method); an object with one has a `toString`
that is not callable, the inherited `valueOf` returns the object, and the
conversion throws a `TypeError`. -/
def toStringJS (format : Bool → Nat → Int → String) : JSValue → Except JSValue String
  | .undefined => .ok "undefined"
  | .null => .ok "null"
  | .bool true => .ok "true"
  | .bool false => .ok "false"
  | .num x => .ok (numberToString format x)
  | .str s => .ok s
  | .arr items =>
    match itemTexts format items with
    | .error thrown => .error thrown
    | .ok texts => .ok (",".intercalate texts)
  | .obj props =>
    if (lookupProp "toString" props).isSome then
      .error (typeError "Cannot convert object to primitive value")
    else .ok "[object Object]"
/-- The texts that `Array.prototype.join` joins: empty for `undefined` and
`null`, ToString of the element otherwise. -/
def itemTexts (format : Bool → Nat → Int → String) : List JSValue → Except JSValue (List String)
  | [] => .ok []
  | .undefined :: rest => (itemTexts format rest).map fun texts => "" :: texts
  | .null :: rest => (itemTexts format rest).map fun texts => "" :: texts
  | item :: rest =>
    match toStringJS format item with
    | .error thrown => .error thrown
    | .ok text => (itemTexts format rest).map fun texts => text :: texts
end

/-! ## Host, request and effects -/

/-- The keys of `process.env` that the program reads; a variable is a string
or unset. -/
structure Env where
  NODE_ENV : Option String := none
  GMAIL_USER : Option String := none
  VALIDATION_BASE_URL : Option String := none

/-- The message object handed to `transporter.sendMail`: its `from`, `to`,
`subject` and `html` (`from` and `to` are reserved words here, hence `sender`
and `to_`). The handler passes the body's `to` on as it is. -/
structure OutboundEmail where
  sender : String
  to_ : JSValue
  subject : String
  html : String

/-- What surrounds the handler: the environment, the text
`Math.random().toString(36)` of the n-th random draw, the decimal text of a
finite non-zero number, and the delivery call `transporter.sendMail`, which
resolves with an info value (`.ok`) or rejects with an error value
(`.error`). -/
structure Host where
  env : Env
  random36 : Nat → String
  formatNumber : Bool → Nat → Int → String
  sendMail : OutboundEmail → Except JSValue JSValue

/-- The parsed JSON body `req.body`, through the keys the handler reads: `to`
(here `to_`), `validationUrl` and `validationurl`. Each is the JSON value
stored under the key, or `undefined` when the key is absent. -/
structure RequestBody where
  to_ : JSValue := .undefined
  validationUrl : JSValue := .undefined
  validationurl : JSValue := .undefined

/-- One response written on `res`: the status and the JSON document sent. -/
structure Response where
  status : Nat
  body : JSValue

/-- The observable effects of handling a request. -/
structure World where
  responses : List Response := []
  sent : List OutboundEmail := []
  randomDraws : Nat := 0

/-- The result of running a piece of the handler: whether it completed or threw,
and the world it left. -/
abbrev Run := Except JSValue Unit × World

/-- The expression `a || b`. -/
def orValue (a b : JSValue) : JSValue :=
  if a.truthy then a else b

/-- The expression `a || b` where `a` is an environment variable and `b` a
string literal: an unset or empty variable gives the literal. -/
def orDefault (setting : Option String) (literal : String) : String :=
  match setting with
  | some s => if s ≠ "" then s else literal
  | none => literal

/-! ## The program -/

/-- `generateToken(len = 10)`: characters 2 to 2+len of the base-36 text of a
fresh random draw. -/
def generateToken (host : Host) (w : World) (len : Nat := 10) : String × World :=
  (((host.random36 w.randomDraws).drop 2).take len, { w with randomDraws := w.randomDraws + 1 })

/-- `VALIDATION_BASE_URL`, line 61. -/
def VALIDATION_BASE_URL (env : Env) : String :=
  orDefault env.VALIDATION_BASE_URL "https://validacion.centrobiblico.com/validar"

/-- `res.status(status).json(value)`. -/
def resStatusJson (status : Nat) (value : JSValue) (w : World) : World :=
  { w with responses := w.responses ++ [{ status := status, body := toJSON value }] }

/-- The options object of `sendSuccess`, with the defaults of its string and
number properties; `data` left out is `undefined`. -/
structure SuccessOptions where
  code : String := "SUCCESS"
  message : String := "OK"
  data : JSValue := .undefined
  status : Nat := 200

/-- The options object of `sendError`, with the defaults of its string and
number properties; `details` and `errors` have none. -/
structure ErrorOptions where
  code : String := "INTERNAL_ERROR"
  message : String := "Ocurrió un error"
  details : JSValue := .undefined
  errors : JSValue := .undefined
  status : Nat := 500

/-- The destructuring default `data = null`: it applies to `undefined` only. -/
def defaultNull : JSValue → JSValue
  | .undefined => .null
  | v => v

/-- `sendSuccess(res, options)`, lines 64-66. -/
def sendSuccess (o : SuccessOptions) (w : World) : World :=
  resStatusJson o.status
    (.obj [("ok", .bool true), ("code", .str o.code), ("message", .str o.message),
      ("data", defaultNull o.data)]) w

/-- `sendError(res, options)`, lines 68-70. -/
def sendError (o : ErrorOptions) (w : World) : World :=
  resStatusJson o.status
    (.obj [("ok", .bool false), ("code", .str o.code), ("message", .str o.message),
      ("details", o.details), ("errors", o.errors)]) w

/-- The object returned by `mapEmailError`. -/
structure MappedError where
  code : String
  status : Nat
  message : String

/-- `mapEmailError(error)`, lines 72-83. -/
def mapEmailError (error : JSValue) : Except JSValue MappedError := do
  let discriminant ← andMember error "code"
  if strictEqString discriminant "EAUTH" then
    pure { code := "SMTP_AUTH_FAILED", status := 401, message := "Autenticación SMTP fallida" }
  else if strictEqString discriminant "ENOTFOUND" then
    pure { code := "SMTP_HOST_NOT_FOUND", status := 502, message := "Servidor SMTP no encontrado" }
  else if strictEqString discriminant "ETIMEDOUT" then
    pure { code := "SMTP_TIMEOUT", status := 504,
           message := "Tiempo de espera agotado con el servidor SMTP" }
  else
    pure { code := "EMAIL_SEND_FAILED", status := 500, message := "No se pudo enviar el correo" }

/-- The constant `subject` of the handler, line 145. -/
def subject : String := "Bienvenido al Centro Bíblico Alianza Comas"

/-- The template from its start to the indentation of the validation link,
lines 157-163. -/
def welcomeHtmlOpening : String :=
  "\n" ++
  "    <div style=\"background-color:#1a2942;padding:30px;border-radius:10px;font-family:sans-serif;color:#fff;max-width:500px;margin:auto;\">\n" ++
  "      <h2 style=\"color:#fff;margin-top:0;\">Bienvenido al <span style='color:#bfc9d9;'>Centro Bíblico Alianza Comas</span></h2>\n" ++
  "      <p style=\"font-size:16px;color:#fff;\">¡Gracias por registrarte! Estamos felices de tenerte con nosotros.</p>\n" ++
  "      <div style=\"background:#fff;padding:20px;border-radius:8px;margin:20px 0;\">\n" ++
  "        <p style=\"color:#1a2942;font-size:15px;margin:0 0 10px 0;\">Para validar tu cuenta, haz clic en el siguiente enlace:</p>\n" ++
  "  "

/-- The template between the `href` of the validation link and that of the
portal link, lines 163-165. -/
def welcomeHtmlMiddle : String :=
  " target=\"_blank\" rel=\"noopener noreferrer\" style=\"display:inline-block;background-color:#1a2942;color:#fff;padding:10px 20px;border-radius:5px;text-decoration:none;font-weight:bold;\">Validar cuenta</a>\n" ++
  "        <br/>\n" ++
  "  <a "

/-- The template after the `href` of the portal link, lines 165-169. -/
def welcomeHtmlEnd : String :=
  " target=\"_blank\" rel=\"noopener noreferrer\" style=\"display:inline-block;background-color:#1a2942;color:#fff;padding:10px 20px;border-radius:5px;text-decoration:none;font-weight:bold;margin-top:10px;\">Acceso al portal</a>\n" ++
  "      </div>\n" ++
  "      <p style=\"font-size:13px;color:#bfc9d9;\">Si no solicitaste este registro, puedes ignorar este correo.</p>\n" ++
  "    </div>\n" ++
  "  "

/-- The `welcomeHtml` template literal before the interpolated URL: it ends in
the opening of the validation link. -/
def welcomeHtmlBefore : String :=
  welcomeHtmlOpening ++ "<a href=\""

/-- The `welcomeHtml` template literal after the interpolated URL: the closing
quote of the validation link's `href`, and the rest with the portal link. -/
def welcomeHtmlAfter : String :=
  "\"" ++ (welcomeHtmlMiddle ++ "href=\"https://cebac-phi.vercel.app/login\"" ++ welcomeHtmlEnd)

/-- The template literal `welcomeHtml`, lines 157-169: ToString of
`finalValidationUrl` between the two fixed texts; it throws when ToString
does. -/
def welcomeHtml (host : Host) (finalValidationUrl : JSValue) : Except JSValue String :=
  match toStringJS host.formatNumber finalValidationUrl with
  | .error thrown => .error thrown
  | .ok text => .ok (welcomeHtmlBefore ++ text ++ welcomeHtmlAfter)

/-- The sender, `process.env.GMAIL_USER || 'notificacionescebac@gmail.com'`. -/
def sender (env : Env) : String :=
  orDefault env.GMAIL_USER "notificacionescebac@gmail.com"

/-- The `try` block of the handler, lines 172-193: the transporter built by
`nodemailer.createTransport` is the host's `sendMail`. -/
def tryBlock (host : Host) (to_ finalValidationUrl : JSValue) (html : String)
    (w : World) : Run :=
  let mail : OutboundEmail := { sender := sender host.env, to_ := to_, subject := subject, html := html }
  let w1 := { w with sent := w.sent ++ [mail] }
  match host.sendMail mail with
  | .error error => (.error error, w1)
  | .ok info =>
    match andMember info "messageId" with
    | .error error => (.error error, w1)
    | .ok messageId =>
      (.ok (), sendSuccess
        { code := "EMAIL_SENT",
          message := "Correo enviado correctamente",
          data := .obj [("messageId", messageId), ("to", to_), ("subject", .str subject),
                        ("validationUrl", finalValidationUrl)],
          status := 200 } w1)

/-- The `catch (error)` block of the handler, lines 194-202. -/
def catchBlock (host : Host) (error : JSValue) (w : World) : Run :=
  match mapEmailError error with
  | .error thrown => (.error thrown, w)
  | .ok mapped =>
    match (if host.env.NODE_ENV = some "production" then .ok .undefined
           else andMember error "message") with
    | .error thrown => (.error thrown, w)
    | .ok details =>
      (.ok (), sendError
        { code := mapped.code, message := mapped.message, details := details,
          status := mapped.status } w)

/-- The `finalValidationUrl` of line 155, with the world after its evaluation:
the right operand of `||` runs only when the left one is falsy. -/
def finalValidationUrl (host : Host) (providedValidationUrl : JSValue) (w : World) :
    JSValue × World :=
  if providedValidationUrl.truthy then (providedValidationUrl, w)
  else
    let (token, w1) := generateToken host w 8
    (.str (VALIDATION_BASE_URL host.env ++ "/" ++ token), w1)

/-- The handler of `POST /send`, lines 142-203. The template literal of lines
157-169 is evaluated before the `try` of line 171: when it throws, the handler
throws and nothing has been written on `res`. -/
def postSend (host : Host) (body : RequestBody) (w : World) : Run :=
  let to_ := body.to_
  let providedValidationUrl := orValue body.validationUrl body.validationurl
  if !to_.truthy then
    (.ok (), sendError
      { code := "VALIDATION_ERROR", message := "El campo 'to' es obligatorio", status := 400 } w)
  else if !providedValidationUrl.truthy then
    (.ok (), sendError
      { code := "VALIDATION_ERROR", message := "El campo 'validationUrl' es obligatorio",
        status := 400 } w)
  else
    let (url, w1) := finalValidationUrl host providedValidationUrl w
    match welcomeHtml host url with
    | .error thrown => (.error thrown, w1)
    | .ok html =>
      match tryBlock host to_ url html w1 with
      | (.ok (), w2) => (.ok (), w2)
      | (.error error, w2) => catchBlock host error w2

/-- The global error middleware, lines 207-210. -/
def errorMiddleware (env : Env) (err : JSValue) (w : World) : Run :=
  match (if env.NODE_ENV = some "production" then .ok .undefined
         else andMember err "message") with
  | .error thrown => (.error thrown, w)
  | .ok details =>
    (.ok (), sendError { code := "UNHANDLED_ERROR", message := "Error no manejado",
                         details := details, status := 500 } w)

/-! ## Vocabulary of the properties -/

/-- A body field is absent or the empty string. -/
def absentOrEmpty (field : JSValue) : Prop :=
  field = .undefined ∨ field = .str ""

/-- A body field is non-empty in the sense of the handler's test: truthy. For
a string this says that it is not "". -/
def nonEmpty (field : JSValue) : Prop :=
  field.truthy = true

instance (field : JSValue) : Decidable (nonEmpty field) := by
  unfold nonEmpty; infer_instance

/-- The request passes the validation of lines 147-152: `to` is non-empty and
one of the two spellings of the validation URL is non-empty. -/
def passesValidation (body : RequestBody) : Prop :=
  nonEmpty body.to_ ∧ (nonEmpty body.validationUrl ∨ nonEmpty body.validationurl)

instance (body : RequestBody) : Decidable (passesValidation body) := by
  unfold passesValidation; infer_instance

/-- The canonical validation URL of a request, in the words of the
specification: the value of `validationUrl` when that is non-empty, otherwise
the value of `validationurl`. -/
def canonicalUrl (body : RequestBody) : JSValue :=
  if nonEmpty body.validationUrl then body.validationUrl else body.validationurl

/-- The message the handler builds for a body: the configured sender, the
body's `to`, the constant subject and the template filled with
`validationUrl || validationurl`. Building it throws when the template does. -/
def welcomeEmail (host : Host) (body : RequestBody) : Except JSValue OutboundEmail :=
  match welcomeHtml host (orValue body.validationUrl body.validationurl) with
  | .error thrown => .error thrown
  | .ok html => .ok { sender := sender host.env, to_ := body.to_, subject := subject, html := html }

mutual
/-- A value that a JSON text can denote and `JSON.parse` represent exactly: no
`undefined`, no `NaN` or infinity, no negative zero, at any depth. -/
def isJSON : JSValue → Bool
  | .undefined => false
  | .null => true
  | .bool _ => true
  | .num .nan => false
  | .num (.infinite _) => false
  | .num (.finite true 0 _) => false
  | .num _ => true
  | .str _ => true
  | .arr items => isJSONItems items
  | .obj props => isJSONProps props
/-- All elements of an array are such values. -/
def isJSONItems : List JSValue → Bool
  | [] => true
  | v :: rest => isJSON v && isJSONItems rest
/-- All property values of an object are such values. -/
def isJSONProps : List (String × JSValue) → Bool
  | [] => true
  | (_, v) :: rest => isJSON v && isJSONProps rest
end

/-- A host for examples: an empty environment, a fixed random text, a number
format that the examples do not exercise, and a delivery call with a fixed
outcome. -/
def exampleHost (outcome : Except JSValue JSValue) : Host :=
  { env := {}, random36 := fun _ => "0.4fzyo82mvyr", formatNumber := fun _ _ _ => "1",
    sendMail := fun _ => outcome }

/-- The same host running in production mode. -/
def productionHost (outcome : Except JSValue JSValue) : Host :=
  { exampleHost outcome with env := { NODE_ENV := some "production" } }

/-- The request of the specification's scenario,
`{"to":"a@b.com","validationUrl":"https://x/y"}`. -/
def exampleBody : RequestBody :=
  { to_ := .str "a@b.com", validationUrl := .str "https://x/y" }

/-- A request that only uses the lower-cased alias. -/
def aliasBody : RequestBody :=
  { to_ := .str "a@b.com", validationurl := .str "https://x/z" }

/-- The request `{"to":"a@b.com","validationUrl":{"a":1}}`: the URL is an
object. -/
def objectUrlBody : RequestBody :=
  { to_ := .str "a@b.com", validationUrl := .obj [("a", .num (.finite false 1 0))] }

/-- The request `{"to":"a@b.com","validationUrl":{"toString":1}}`: the URL is
an object that has no string conversion. -/
def unconvertibleUrlBody : RequestBody :=
  { to_ := .str "a@b.com", validationUrl := .obj [("toString", .num (.finite false 1 0))] }

/-- The message built for the scenario request by the example host. -/
def exampleMail (url : String) : OutboundEmail :=
  { sender := "notificacionescebac@gmail.com", to_ := .str "a@b.com", subject := subject,
    html := welcomeHtmlBefore ++ url ++ welcomeHtmlAfter }

/-- An info value as the transport returns it. -/
def exampleInfo : JSValue :=
  .obj [("accepted", .arr [.str "a@b.com"]), ("messageId", .str "<abc123@gmail.com>")]

/-- An authentication failure as the transport throws it. -/
def authError (message : String) : JSValue :=
  .obj [("code", .str "EAUTH"), ("message", .str message)]

/-- The handler of `POST /send` with the fallback of line 155 removed:
`finalValidationUrl` is the provided URL. -/
def postSendWithoutFallback (host : Host) (body : RequestBody) (w : World) : Run :=
  let to_ := body.to_
  let providedValidationUrl := orValue body.validationUrl body.validationurl
  if !to_.truthy then
    (.ok (), sendError
      { code := "VALIDATION_ERROR", message := "El campo 'to' es obligatorio", status := 400 } w)
  else if !providedValidationUrl.truthy then
    (.ok (), sendError
      { code := "VALIDATION_ERROR", message := "El campo 'validationUrl' es obligatorio",
        status := 400 } w)
  else
    match welcomeHtml host providedValidationUrl with
    | .error thrown => (.error thrown, w)
    | .ok html =>
      match tryBlock host to_ providedValidationUrl html w with
      | (.ok (), w2) => (.ok (), w2)
      | (.error error, w2) => catchBlock host error w2

/-- The envelope of a validation error as it is sent: `details` and `errors`
are `undefined` in the object given to `res.json`, so they are not written. -/
def validationErrorResponse (message : String) : Response :=
  { status := 400,
    body := .obj [("ok", .bool false), ("code", .str "VALIDATION_ERROR"), ("message", .str message)] }

/-! ## Basic facts -/

theorem truthy_of_absentOrEmpty (field : JSValue) (h : absentOrEmpty field) :
    field.truthy = false := by
  rcases h with h | h <;> rw [h] <;> simp [JSValue.truthy]

theorem not_nonEmpty_of_absentOrEmpty (field : JSValue) (h : absentOrEmpty field) :
    ¬ nonEmpty field := by
  unfold nonEmpty
  rw [truthy_of_absentOrEmpty field h]
  simp

theorem ne_undefined_of_truthy (v : JSValue) (h : v.truthy = true) : v ≠ .undefined := by
  intro c
  rw [c] at h
  simp [JSValue.truthy] at h

mutual
theorem toJSON_of_isJSON : ∀ v, isJSON v = true → toJSON v = v
  | .undefined, h => by simp [isJSON] at h
  | .null, _ => rfl
  | .bool _, _ => rfl
  | .num .nan, h => by simp [isJSON] at h
  | .num (.infinite _), h => by simp [isJSON] at h
  | .num (.finite true 0 _), h => by simp [isJSON] at h
  | .num (.finite false 0 _), _ => by simp [toJSON]
  | .num (.finite _ (_ + 1) _), _ => by simp [toJSON]
  | .str _, _ => rfl
  | .arr items, h => by
    simp only [isJSON] at h
    simp [toJSON, toJSONItems_of_isJSON items h]
  | .obj props, h => by
    simp only [isJSON] at h
    simp [toJSON, toJSONProps_of_isJSON props h]
theorem toJSONItems_of_isJSON : ∀ items, isJSONItems items = true → toJSONItems items = items
  | [], _ => rfl
  | v :: rest, h => by
    simp only [isJSONItems, Bool.and_eq_true] at h
    have h1 := toJSON_of_isJSON v h.1
    have h2 := toJSONItems_of_isJSON rest h.2
    cases v <;> simp_all [toJSONItems, isJSON]
theorem toJSONProps_of_isJSON : ∀ props, isJSONProps props = true → toJSONProps props = props
  | [], _ => rfl
  | (k, v) :: rest, h => by
    simp only [isJSONProps, Bool.and_eq_true] at h
    have h1 := toJSON_of_isJSON v h.1
    have h2 := toJSONProps_of_isJSON rest h.2
    cases v <;> simp_all [toJSONProps, isJSON]
end

theorem toJSONProps_cons (key : String) (v : JSValue) (rest : List (String × JSValue))
    (h : v ≠ .undefined) :
    toJSONProps ((key, v) :: rest) = (key, toJSON v) :: toJSONProps rest := by
  cases v <;> simp_all [toJSONProps]

theorem andMember_eq (v : JSValue) (key : String) :
    andMember v key = .ok (if v.truthy then v.get key else v) := by
  cases v with
  | num x => cases h : (JSValue.num x).truthy <;> simp [andMember, getMember, JSValue.get, h]
  | bool b => cases b <;> simp [andMember, getMember, JSValue.get, JSValue.truthy]
  | str s => cases h : (JSValue.str s).truthy <;> simp [andMember, getMember, JSValue.get, h]
  | _ => simp [andMember, getMember, JSValue.get, JSValue.truthy]

theorem strictEqString_eq_true_iff (v : JSValue) (s : String) :
    strictEqString v s = true ↔ v = .str s := by
  cases v <;> simp [strictEqString]

/-- The discriminant of the `switch` is one of the three codes only when the
error is an object (or other truthy value) whose `code` reads so. -/
theorem discriminant_eq_str_iff (error : JSValue) (s : String) (hs : s ≠ "") :
    (if error.truthy then error.get "code" else error) = .str s ↔ error.get "code" = .str s := by
  cases h : error.truthy
  · simp only [Bool.false_eq_true, if_false]
    cases error <;> simp_all [JSValue.truthy, JSValue.get]
    rename_i t
    intro ht; exact hs ht.symm
  · simp

theorem mapEmailError_spec (error : JSValue) :
    ∃ m, mapEmailError error = .ok m ∧
      (error.get "code" = .str "EAUTH" →
        m = { code := "SMTP_AUTH_FAILED", status := 401, message := "Autenticación SMTP fallida" }) ∧
      (error.get "code" = .str "ENOTFOUND" →
        m = { code := "SMTP_HOST_NOT_FOUND", status := 502,
              message := "Servidor SMTP no encontrado" }) ∧
      (error.get "code" = .str "ETIMEDOUT" →
        m = { code := "SMTP_TIMEOUT", status := 504,
              message := "Tiempo de espera agotado con el servidor SMTP" }) ∧
      (error.get "code" ≠ .str "EAUTH" → error.get "code" ≠ .str "ENOTFOUND" →
        error.get "code" ≠ .str "ETIMEDOUT" →
        m = { code := "EMAIL_SEND_FAILED", status := 500,
              message := "No se pudo enviar el correo" }) := by
  have h1 := discriminant_eq_str_iff error "EAUTH" (by decide)
  have h2 := discriminant_eq_str_iff error "ENOTFOUND" (by decide)
  have h3 := discriminant_eq_str_iff error "ETIMEDOUT" (by decide)
  simp only [mapEmailError, andMember_eq, bind, Except.bind, pure, Except.pure]
  by_cases c1 : error.get "code" = .str "EAUTH"
  · have d1 := (strictEqString_eq_true_iff _ _).2 (h1.2 c1)
    refine ⟨_, by rw [if_pos d1], fun _ => rfl, ?_, ?_, ?_⟩
    · intro c; rw [c1] at c; simp at c
    · intro c; rw [c1] at c; simp at c
    · intro c; exact absurd c1 c
  · have d1 : ¬ strictEqString (if error.truthy then error.get "code" else error) "EAUTH" = true :=
      fun h => c1 (h1.1 ((strictEqString_eq_true_iff _ _).1 h))
    by_cases c2 : error.get "code" = .str "ENOTFOUND"
    · have d2 := (strictEqString_eq_true_iff _ _).2 (h2.2 c2)
      refine ⟨_, by rw [if_neg d1, if_pos d2], fun c => absurd c c1, fun _ => rfl, ?_, ?_⟩
      · intro c; rw [c2] at c; simp at c
      · intro _ c; exact absurd c2 c
    · have d2 : ¬ strictEqString (if error.truthy then error.get "code" else error) "ENOTFOUND" = true :=
        fun h => c2 (h2.1 ((strictEqString_eq_true_iff _ _).1 h))
      by_cases c3 : error.get "code" = .str "ETIMEDOUT"
      · have d3 := (strictEqString_eq_true_iff _ _).2 (h3.2 c3)
        exact ⟨_, by rw [if_neg d1, if_neg d2, if_pos d3], fun c => absurd c c1,
          fun c => absurd c c2, fun _ => rfl, fun _ _ c => absurd c3 c⟩
      · have d3 : ¬ strictEqString (if error.truthy then error.get "code" else error) "ETIMEDOUT" = true :=
          fun h => c3 (h3.1 ((strictEqString_eq_true_iff _ _).1 h))
        exact ⟨_, by rw [if_neg d1, if_neg d2, if_neg d3], fun c => absurd c c1,
          fun c => absurd c c2, fun c => absurd c c3, fun _ _ _ => rfl⟩


theorem passesValidation_iff (body : RequestBody) :
    passesValidation body ↔
      body.to_.truthy = true ∧
        (orValue body.validationUrl body.validationurl).truthy = true := by
  unfold passesValidation orValue nonEmpty
  cases h : body.validationUrl.truthy <;> simp [h]

theorem orValue_eq_canonicalUrl (body : RequestBody) :
    orValue body.validationUrl body.validationurl = canonicalUrl body := rfl

theorem canonicalUrl_truthy (body : RequestBody) (hv : passesValidation body) :
    (canonicalUrl body).truthy = true := by
  rw [← orValue_eq_canonicalUrl]
  exact ((passesValidation_iff body).1 hv).2

/-- The envelope of a delivery error before serialisation has `ok`, `code` and
`message` in its first three places, whatever `details` is. -/
theorem sendError_responses (o : ErrorOptions) (w : World) :
    ∃ r, (sendError o w).responses = w.responses ++ [r] ∧ (sendError o w).sent = w.sent ∧
      (sendError o w).randomDraws = w.randomDraws ∧
      r.status = o.status ∧ r.body.get "ok" = .bool false ∧ r.body.get "code" = .str o.code ∧
      r.body.get "message" = .str o.message ∧
      (o.details = .undefined → r.body.hasKey "details" = false) := by
  refine ⟨_, rfl, rfl, rfl, rfl, ?_, ?_, ?_, ?_⟩
  · simp [toJSON, toJSONProps, JSValue.get, lookupProp]
  · simp [toJSON, toJSONProps, JSValue.get, lookupProp]
  · simp [toJSON, toJSONProps, JSValue.get, lookupProp]
  · intro h
    cases he : o.errors <;>
      simp [toJSON, toJSONProps, JSValue.hasKey, lookupProp, h, he]

theorem finalValidationUrl_of_truthy (host : Host) (provided : JSValue) (w : World)
    (h : provided.truthy = true) :
    finalValidationUrl host provided w = (provided, w) := by
  simp [finalValidationUrl, h]

theorem catchBlock_eq (host : Host) (error : JSValue) (w : World) (m : MappedError)
    (hm : mapEmailError error = .ok m) :
    catchBlock host error w =
      (.ok (), sendError
        { code := m.code, message := m.message,
          details := if host.env.NODE_ENV = some "production" then .undefined
                     else if error.truthy then error.get "message" else error,
          status := m.status } w) := by
  unfold catchBlock
  rw [hm, andMember_eq]
  by_cases hp : host.env.NODE_ENV = some "production" <;> simp [hp]

theorem catchBlock_ok (host : Host) (error : JSValue) (w : World) :
    ∃ o, catchBlock host error w = (.ok (), sendError o w) ∧
      (o.status = 401 ∨ o.status = 500 ∨ o.status = 502 ∨ o.status = 504) ∧
      (host.env.NODE_ENV = some "production" → o.details = .undefined) := by
  obtain ⟨m, hm, m1, m2, m3, m4⟩ := mapEmailError_spec error
  refine ⟨_, catchBlock_eq host error w m hm, ?_, ?_⟩
  · by_cases c1 : error.get "code" = .str "EAUTH"
    · rw [m1 c1]; simp
    · by_cases c2 : error.get "code" = .str "ENOTFOUND"
      · rw [m2 c2]; simp
      · by_cases c3 : error.get "code" = .str "ETIMEDOUT"
        · rw [m3 c3]; simp
        · rw [m4 c1 c2 c3]; simp
  · intro hp; simp [hp]

theorem mapEmailError_congr (e1 e2 : JSValue) (h : e1.get "code" = e2.get "code") :
    mapEmailError e1 = mapEmailError e2 := by
  obtain ⟨m, hm, a1, a2, a3, a4⟩ := mapEmailError_spec e1
  obtain ⟨n, hn, b1, b2, b3, b4⟩ := mapEmailError_spec e2
  rw [hm, hn]
  rw [h] at a1 a2 a3 a4
  by_cases c1 : e2.get "code" = .str "EAUTH"
  · rw [a1 c1, b1 c1]
  · by_cases c2 : e2.get "code" = .str "ENOTFOUND"
    · rw [a2 c2, b2 c2]
    · by_cases c3 : e2.get "code" = .str "ETIMEDOUT"
      · rw [a3 c3, b3 c3]
      · rw [a4 c1 c2 c3, b4 c1 c2 c3]


theorem welcomeEmail_of_string (host : Host) (body : RequestBody) (u : String)
    (hu : canonicalUrl body = .str u) :
    welcomeEmail host body =
      .ok { sender := sender host.env, to_ := body.to_, subject := subject,
            html := welcomeHtmlBefore ++ u ++ welcomeHtmlAfter } := by
  simp [welcomeEmail, orValue_eq_canonicalUrl, hu, welcomeHtml, toStringJS]

theorem postSend_of_mail (host : Host) (body : RequestBody) (w : World) (mail : OutboundEmail)
    (h : passesValidation body) (hm : welcomeEmail host body = .ok mail) :
    postSend host body w =
      match host.sendMail mail with
      | .ok info =>
        (.ok (), sendSuccess
          { code := "EMAIL_SENT",
            message := "Correo enviado correctamente",
            data := .obj [("messageId", if info.truthy then info.get "messageId" else info),
                          ("to", body.to_), ("subject", .str subject),
                          ("validationUrl", canonicalUrl body)],
            status := 200 } { w with sent := w.sent ++ [mail] })
      | .error error => catchBlock host error { w with sent := w.sent ++ [mail] } := by
  obtain ⟨ht, hu⟩ := (passesValidation_iff body).1 h
  unfold welcomeEmail at hm
  cases hh : welcomeHtml host (orValue body.validationUrl body.validationurl) with
  | error thrown => simp [hh] at hm
  | ok html =>
    simp only [hh, Except.ok.injEq] at hm
    subst hm
    unfold postSend
    simp only [ht, hu, finalValidationUrl_of_truthy host _ w hu, hh, tryBlock,
      andMember_eq, Bool.not_true, Bool.false_eq_true, if_false]
    cases host.sendMail
        { sender := sender host.env, to_ := body.to_, subject := subject, html := html } <;> rfl

theorem postSend_of_throw (host : Host) (body : RequestBody) (w : World) (thrown : JSValue)
    (h : passesValidation body) (hm : welcomeEmail host body = .error thrown) :
    postSend host body w = (.error thrown, w) := by
  obtain ⟨ht, hu⟩ := (passesValidation_iff body).1 h
  unfold welcomeEmail at hm
  cases hh : welcomeHtml host (orValue body.validationUrl body.validationurl) with
  | ok html => simp [hh] at hm
  | error e =>
    simp only [hh, Except.error.injEq] at hm
    subst hm
    unfold postSend
    simp [ht, hu, finalValidationUrl_of_truthy host _ w hu, hh]

theorem postSend_of_not_passes (host : Host) (body : RequestBody) (w : World)
    (h : ¬ passesValidation body) :
    postSend host body w =
      (.ok (), sendError
        { code := "VALIDATION_ERROR",
          message := if body.to_.truthy then "El campo 'validationUrl' es obligatorio"
                     else "El campo 'to' es obligatorio",
          status := 400 } w) := by
  rw [passesValidation_iff] at h
  unfold postSend
  cases ht : body.to_.truthy
  · simp [ht]
  · cases hu : (orValue body.validationUrl body.validationurl).truthy
    · simp [ht, hu]
    · exact absurd ⟨ht, hu⟩ h

theorem sendError_sent (o : ErrorOptions) (w : World) : (sendError o w).sent = w.sent := rfl

theorem sendError_randomDraws (o : ErrorOptions) (w : World) :
    (sendError o w).randomDraws = w.randomDraws := rfl

theorem data_get_validationUrl (messageId a b c : JSValue) :
    (JSValue.obj (toJSONProps [("messageId", messageId)] ++
      [("to", a), ("subject", b), ("validationUrl", c)])).get "validationUrl" = c := by
  cases messageId <;> simp [toJSONProps, JSValue.get, lookupProp]

theorem toJSONProps_data (messageId a c : JSValue) (b : String)
    (ha : a ≠ .undefined) (hc : c ≠ .undefined) :
    toJSONProps [("messageId", messageId), ("to", a), ("subject", .str b), ("validationUrl", c)] =
      toJSONProps [("messageId", messageId)] ++
        [("to", toJSON a), ("subject", .str b), ("validationUrl", toJSON c)] := by
  have h2 := toJSONProps_cons "validationUrl" c [] hc
  have h3 : toJSONProps [("subject", .str b), ("validationUrl", c)] =
      [("subject", .str b), ("validationUrl", toJSON c)] := by
    simp [toJSONProps, h2, toJSON]
  have h1 := toJSONProps_cons "to" a [("subject", .str b), ("validationUrl", c)] ha
  rw [h3] at h1
  cases messageId <;> simp [toJSONProps, h1]

theorem toJSON_successEnvelope (code message : String) (data : List (String × JSValue)) :
    toJSON (.obj [("ok", .bool true), ("code", .str code), ("message", .str message),
        ("data", defaultNull (.obj data))]) =
      .obj [("ok", .bool true), ("code", .str code), ("message", .str message),
        ("data", .obj (toJSONProps data))] := by
  simp [toJSON, toJSONProps, defaultNull]

/-- The response to a valid request whose delivery call resolved with `info`. -/
theorem postSend_delivered (host : Host) (body : RequestBody) (mail : OutboundEmail)
    (info : JSValue) (hv : passesValidation body) (hm : welcomeEmail host body = .ok mail)
    (hs : host.sendMail mail = .ok info) :
    postSend host body {} =
      (.ok (),
        { responses :=
            [{ status := 200,
               body := .obj [("ok", .bool true), ("code", .str "EMAIL_SENT"),
                 ("message", .str "Correo enviado correctamente"),
                 ("data", .obj (toJSONProps
                     [("messageId", if info.truthy then info.get "messageId" else info)] ++
                   [("to", toJSON body.to_), ("subject", .str subject),
                    ("validationUrl", toJSON (canonicalUrl body))]))] }],
          sent := [mail] }) := by
  rw [postSend_of_mail host body {} mail hv hm, hs]
  simp only [sendSuccess, resStatusJson, toJSON_successEnvelope,
    toJSONProps_data _ _ _ _ (ne_undefined_of_truthy _ hv.1)
      (ne_undefined_of_truthy _ (canonicalUrl_truthy body hv))]
  rfl

/-! ## Validation -/

/-- C2: a body whose `to` is absent or empty, whatever its other fields (so
also the empty body), gets exactly one response: status 400 with ok = false,
code `VALIDATION_ERROR` and the message "El campo 'to' es obligatorio", which
names the field `to`. -/
theorem missing_to_rejected (host : Host) (body : RequestBody)
    (h : absentOrEmpty body.to_) :
    ∃ r, postSend host body {} = (.ok (), { responses := [r] }) ∧
      r.status = 400 ∧
      r.body = .obj [("ok", .bool false), ("code", .str "VALIDATION_ERROR"),
                     ("message", .str ("El campo " ++ "'to'" ++ " es obligatorio"))] ∧
      r.body.get "ok" = .bool false ∧
      r.body.get "code" = .str "VALIDATION_ERROR" := by
  have ht : body.to_.truthy = false := truthy_of_absentOrEmpty _ h
  refine ⟨validationErrorResponse "El campo 'to' es obligatorio", ?_, rfl, rfl, rfl, rfl⟩
  simp [postSend, ht, sendError, resStatusJson, toJSON, toJSONProps, validationErrorResponse]

/-- A run of C2 on the empty body `{}`. -/
theorem missing_to_rejected_witness :
    absentOrEmpty ({} : RequestBody).to_ ∧
    ∃ r, postSend (exampleHost (.ok exampleInfo)) {} {} = (.ok (), { responses := [r] }) ∧
      r.status = 400 ∧
      r.body = .obj [("ok", .bool false), ("code", .str "VALIDATION_ERROR"),
                     ("message", .str ("El campo " ++ "'to'" ++ " es obligatorio"))] ∧
      r.body.get "ok" = .bool false ∧
      r.body.get "code" = .str "VALIDATION_ERROR" :=
  ⟨Or.inl rfl, missing_to_rejected (exampleHost (.ok exampleInfo)) {} (Or.inl rfl)⟩

/-- C3: a body with a non-empty `to` in which `validationUrl` and
`validationurl` are both absent or empty gets exactly one response: status 400
with ok = false, code `VALIDATION_ERROR` and the message
"El campo 'validationUrl' es obligatorio". -/
theorem missing_url_rejected (host : Host) (body : RequestBody)
    (ht : nonEmpty body.to_)
    (hu : absentOrEmpty body.validationUrl) (hl : absentOrEmpty body.validationurl) :
    ∃ r, postSend host body {} = (.ok (), { responses := [r] }) ∧
      r.status = 400 ∧
      r.body = .obj [("ok", .bool false), ("code", .str "VALIDATION_ERROR"),
                     ("message", .str ("El campo " ++ "'validationUrl'" ++ " es obligatorio"))] ∧
      r.body.get "ok" = .bool false ∧
      r.body.get "code" = .str "VALIDATION_ERROR" := by
  have h1 : body.to_.truthy = true := ht
  have h2 : body.validationUrl.truthy = false := truthy_of_absentOrEmpty _ hu
  have h3 : body.validationurl.truthy = false := truthy_of_absentOrEmpty _ hl
  refine ⟨validationErrorResponse "El campo 'validationUrl' es obligatorio", ?_, rfl, rfl, rfl, rfl⟩
  simp [postSend, orValue, h1, h2, h3, sendError, resStatusJson, toJSON, toJSONProps,
    validationErrorResponse]

/-- A run of C3 on `{"to":"a@b.com","validationUrl":""}`. -/
theorem missing_url_rejected_witness :
    nonEmpty (.str "a@b.com") ∧ absentOrEmpty (.str "") ∧ absentOrEmpty .undefined ∧
    ∃ r, postSend (exampleHost (.ok exampleInfo))
        { to_ := .str "a@b.com", validationUrl := .str "" } {} =
          (.ok (), { responses := [r] }) ∧
      r.status = 400 ∧
      r.body = .obj [("ok", .bool false), ("code", .str "VALIDATION_ERROR"),
                     ("message", .str ("El campo " ++ "'validationUrl'" ++ " es obligatorio"))] ∧
      r.body.get "ok" = .bool false ∧
      r.body.get "code" = .str "VALIDATION_ERROR" :=
  ⟨by decide, Or.inr rfl, Or.inl rfl,
    missing_url_rejected (exampleHost (.ok exampleInfo))
      { to_ := .str "a@b.com", validationUrl := .str "" } (by decide) (Or.inr rfl) (Or.inl rfl)⟩

/-! ## Delivery -/

/-- C1: for every thrown error value, `mapEmailError` returns (it does not
throw), and when the delivery call of a valid request throws that value the
handler answers once, with ok = false and with status and code 401
`SMTP_AUTH_FAILED` if the error's code is 'EAUTH', 502 `SMTP_HOST_NOT_FOUND` if it
is 'ENOTFOUND', 504 `SMTP_TIMEOUT` if it is 'ETIMEDOUT', and 500
`EMAIL_SEND_FAILED` for every other value. -/
theorem delivery_error_mapping (error : JSValue) :
    (∃ m, mapEmailError error = .ok m) ∧
    ∀ (host : Host) (body : RequestBody) (mail : OutboundEmail), passesValidation body →
      welcomeEmail host body = .ok mail →
      host.sendMail mail = .error error →
      ∃ r, postSend host body {} = (.ok (), { responses := [r], sent := [mail] }) ∧
        r.body.get "ok" = .bool false ∧
        (error.get "code" = .str "EAUTH" →
          r.status = 401 ∧ r.body.get "code" = .str "SMTP_AUTH_FAILED") ∧
        (error.get "code" = .str "ENOTFOUND" →
          r.status = 502 ∧ r.body.get "code" = .str "SMTP_HOST_NOT_FOUND") ∧
        (error.get "code" = .str "ETIMEDOUT" →
          r.status = 504 ∧ r.body.get "code" = .str "SMTP_TIMEOUT") ∧
        (error.get "code" ≠ .str "EAUTH" → error.get "code" ≠ .str "ENOTFOUND" →
          error.get "code" ≠ .str "ETIMEDOUT" →
          r.status = 500 ∧ r.body.get "code" = .str "EMAIL_SEND_FAILED") := by
  obtain ⟨m, hm, m1, m2, m3, m4⟩ := mapEmailError_spec error
  refine ⟨⟨m, hm⟩, ?_⟩
  intro host body mail hv hmail hf
  rw [postSend_of_mail host body {} mail hv hmail, hf]
  simp only [catchBlock_eq host error _ m hm]
  obtain ⟨r, hr, hsent, hdraws, hstatus, hok, hcode, -, -⟩ :=
    sendError_responses
      { code := m.code, message := m.message,
        details := if host.env.NODE_ENV = some "production" then .undefined
                   else if error.truthy then error.get "message" else error,
        status := m.status }
      { sent := ([] : List OutboundEmail) ++ [mail] }
  refine ⟨r, ?_, hok, ?_, ?_, ?_, ?_⟩
  · generalize sendError _ _ = w at hr hsent hdraws
    cases w
    simp_all
  · intro c; rw [hstatus, hcode, m1 c]; exact ⟨rfl, rfl⟩
  · intro c; rw [hstatus, hcode, m2 c]; exact ⟨rfl, rfl⟩
  · intro c; rw [hstatus, hcode, m3 c]; exact ⟨rfl, rfl⟩
  · intro c1 c2 c3; rw [hstatus, hcode, m4 c1 c2 c3]; exact ⟨rfl, rfl⟩

/-- A run of C1: the transport rejects the scenario request with an `EAUTH`
error and the handler answers 401 `SMTP_AUTH_FAILED`. -/
theorem delivery_error_mapping_witness :
    passesValidation exampleBody ∧
    welcomeEmail (exampleHost (.error (authError "Invalid login"))) exampleBody =
      .ok (exampleMail "https://x/y") ∧
    (exampleHost (.error (authError "Invalid login"))).sendMail (exampleMail "https://x/y") =
      .error (authError "Invalid login") ∧
    (authError "Invalid login").get "code" = .str "EAUTH" ∧
    ∃ r, postSend (exampleHost (.error (authError "Invalid login"))) exampleBody {} =
        (.ok (), { responses := [r], sent := [exampleMail "https://x/y"] }) ∧
      r.body.get "ok" = .bool false ∧
      r.status = 401 ∧ r.body.get "code" = .str "SMTP_AUTH_FAILED" := by
  refine ⟨by decide, rfl, rfl, rfl, ?_⟩
  obtain ⟨r, h1, h2, h3, -⟩ :=
    (delivery_error_mapping (authError "Invalid login")).2
      (exampleHost (.error (authError "Invalid login"))) exampleBody
      (exampleMail "https://x/y") (by decide) rfl rfl
  exact ⟨r, h1, h2, h3 rfl⟩

/-- C4: the validation URL the handler works with (line 155) is `validationUrl`
when that is non-empty and `validationurl` otherwise, and for a valid request
whose delivery call succeeds the single response, of status 200, carries that
value as data.validationUrl: its JSON serialisation, which is the value itself
for every string and every other value JSON can represent. -/
theorem canonical_url_echoed (host : Host) (body : RequestBody) (mail : OutboundEmail)
    (info : JSValue) (hv : passesValidation body)
    (hm : welcomeEmail host body = .ok mail)
    (hs : host.sendMail mail = .ok info) :
    (finalValidationUrl host (orValue body.validationUrl body.validationurl) {}).1 =
        canonicalUrl body ∧
    (nonEmpty body.validationUrl → canonicalUrl body = body.validationUrl) ∧
    (absentOrEmpty body.validationUrl → canonicalUrl body = body.validationurl) ∧
    (¬ nonEmpty body.validationUrl → canonicalUrl body = body.validationurl) ∧
    ∃ r, postSend host body {} = (.ok (), { responses := [r], sent := [mail] }) ∧
      r.status = 200 ∧
      (r.body.get "data").get "validationUrl" = toJSON (canonicalUrl body) ∧
      (∀ u, canonicalUrl body = .str u → (r.body.get "data").get "validationUrl" = .str u) ∧
      (isJSON (canonicalUrl body) = true →
        (r.body.get "data").get "validationUrl" = canonicalUrl body) := by
  have hu := ((passesValidation_iff body).1 hv).2
  have hget := data_get_validationUrl (if info.truthy then info.get "messageId" else info)
    (toJSON body.to_) (.str subject) (toJSON (canonicalUrl body))
  refine ⟨?_, ?_, ?_, ?_, _, postSend_delivered host body mail info hv hm hs, rfl, hget, ?_, ?_⟩
  · rw [finalValidationUrl_of_truthy host _ _ hu, orValue_eq_canonicalUrl]
  · intro h; simp [canonicalUrl, h]
  · intro h; simp [canonicalUrl, not_nonEmpty_of_absentOrEmpty _ h]
  · intro h; simp [canonicalUrl, h]
  · intro u hcu
    refine hget.trans ?_
    rw [hcu]; rfl
  · intro hj
    exact hget.trans (toJSON_of_isJSON _ hj)

/-- A run of C4 on a request that only has the alias `validationurl`. -/
theorem canonical_url_echoed_witness :
    passesValidation aliasBody ∧
    welcomeEmail (exampleHost (.ok exampleInfo)) aliasBody = .ok (exampleMail "https://x/z") ∧
    (exampleHost (.ok exampleInfo)).sendMail (exampleMail "https://x/z") = .ok exampleInfo ∧
    canonicalUrl aliasBody = .str "https://x/z" ∧
    ∃ r, postSend (exampleHost (.ok exampleInfo)) aliasBody {} =
        (.ok (), { responses := [r], sent := [exampleMail "https://x/z"] }) ∧
      r.status = 200 ∧
      (r.body.get "data").get "validationUrl" = .str "https://x/z" := by
  refine ⟨by decide, rfl, rfl, rfl, ?_⟩
  obtain ⟨-, -, -, -, r, h1, h2, -, h3, -⟩ :=
    canonical_url_echoed (exampleHost (.ok exampleInfo)) aliasBody (exampleMail "https://x/z")
      exampleInfo (by decide) rfl rfl
  exact ⟨r, h1, h2, h3 "https://x/z" rfl⟩

/-- C5: for a request with a non-empty `to` and a non-empty validation URL, if
the delivery call resolves with an info whose messageId is X, the handler
answers once, with status 200 and the envelope {ok: true, code: 'EMAIL_SENT',
message, data: {messageId: X, to, subject, validationUrl}}: data.to and
data.validationUrl are the request's `to` and validation URL as JSON writes
them, so the strings t and u themselves when they are strings, and subject is
the constant also given to the delivery call. -/
theorem success_envelope (host : Host) (body : RequestBody) (mail : OutboundEmail)
    (info : JSValue) (X : String)
    (hv : passesValidation body)
    (hm : welcomeEmail host body = .ok mail)
    (hs : host.sendMail mail = .ok info)
    (hX : info.get "messageId" = .str X) :
    postSend host body {} =
      (.ok (),
        { responses :=
            [{ status := 200,
               body := .obj [("ok", .bool true), ("code", .str "EMAIL_SENT"),
                 ("message", .str "Correo enviado correctamente"),
                 ("data", .obj [("messageId", .str X), ("to", toJSON body.to_),
                                ("subject", .str "Bienvenido al Centro Bíblico Alianza Comas"),
                                ("validationUrl", toJSON (canonicalUrl body))])] }],
          sent := [mail] }) ∧
    mail.subject = "Bienvenido al Centro Bíblico Alianza Comas" ∧
    mail.to_ = body.to_ ∧
    (∀ t u, body.to_ = .str t → canonicalUrl body = .str u →
      postSend host body {} =
        (.ok (),
          { responses :=
              [{ status := 200,
                 body := .obj [("ok", .bool true), ("code", .str "EMAIL_SENT"),
                   ("message", .str "Correo enviado correctamente"),
                   ("data", .obj [("messageId", .str X), ("to", .str t),
                                  ("subject", .str "Bienvenido al Centro Bíblico Alianza Comas"),
                                  ("validationUrl", .str u)])] }],
            sent := [mail] })) ∧
    (isJSON body.to_ = true → toJSON body.to_ = body.to_) ∧
    (isJSON (canonicalUrl body) = true → toJSON (canonicalUrl body) = canonicalUrl body) := by
  have htruthy : info.truthy = true := by
    cases info <;> simp_all [JSValue.get, JSValue.truthy]
  have key : postSend host body {} =
      (.ok (),
        { responses :=
            [{ status := 200,
               body := .obj [("ok", .bool true), ("code", .str "EMAIL_SENT"),
                 ("message", .str "Correo enviado correctamente"),
                 ("data", .obj [("messageId", .str X), ("to", toJSON body.to_),
                                ("subject", .str "Bienvenido al Centro Bíblico Alianza Comas"),
                                ("validationUrl", toJSON (canonicalUrl body))])] }],
          sent := [mail] }) := by
    rw [postSend_delivered host body mail info hv hm hs, htruthy, if_pos rfl, hX]
    simp [toJSONProps, toJSON, subject]
  have hmail : mail.subject = "Bienvenido al Centro Bíblico Alianza Comas" ∧
      mail.to_ = body.to_ := by
    unfold welcomeEmail at hm
    cases hh : welcomeHtml host (orValue body.validationUrl body.validationurl) with
    | error thrown => simp [hh] at hm
    | ok html =>
      simp only [hh, Except.ok.injEq] at hm
      subst hm
      exact ⟨rfl, rfl⟩
  refine ⟨key, hmail.1, hmail.2, ?_, toJSON_of_isJSON _, toJSON_of_isJSON _⟩
  intro t u ht hu
  rw [key, ht, hu]
  rfl

/-- A run of C5 on the scenario `{"to":"a@b.com","validationUrl":"https://x/y"}`
with a working transport. -/
theorem success_envelope_witness :
    passesValidation exampleBody ∧
    welcomeEmail (exampleHost (.ok exampleInfo)) exampleBody = .ok (exampleMail "https://x/y") ∧
    (exampleHost (.ok exampleInfo)).sendMail (exampleMail "https://x/y") = .ok exampleInfo ∧
    exampleInfo.get "messageId" = .str "<abc123@gmail.com>" ∧
    postSend (exampleHost (.ok exampleInfo)) exampleBody {} =
      (.ok (),
        { responses :=
            [{ status := 200,
               body := .obj [("ok", .bool true), ("code", .str "EMAIL_SENT"),
                 ("message", .str "Correo enviado correctamente"),
                 ("data", .obj [("messageId", .str "<abc123@gmail.com>"), ("to", .str "a@b.com"),
                                ("subject", .str "Bienvenido al Centro Bíblico Alianza Comas"),
                                ("validationUrl", .str "https://x/y")])] }],
          sent := [exampleMail "https://x/y"] }) :=
  ⟨by decide, rfl, rfl, rfl,
    (success_envelope (exampleHost (.ok exampleInfo)) exampleBody (exampleMail "https://x/y")
      exampleInfo "<abc123@gmail.com>" (by decide) rfl rfl rfl).2.2.2.1
      "a@b.com" "https://x/y" rfl rfl⟩

/-! ## The template literal outside the `try` -/

/-- The log of send calls after handling a request: empty when validation fails
or the template literal throws, the welcome message otherwise. -/
theorem sent_log_eq (host : Host) (body : RequestBody) :
    (postSend host body {}).2.sent =
      (if passesValidation body then
        match welcomeEmail host body with
        | .ok mail => [mail]
        | .error _ => []
      else []) := by
  by_cases hv : passesValidation body
  · rw [if_pos hv]
    cases hm : welcomeEmail host body with
    | error thrown => rw [postSend_of_throw host body {} thrown hv hm]
    | ok mail =>
      rw [postSend_of_mail host body {} mail hv hm]
      cases hs : host.sendMail mail with
      | ok info => rfl
      | error error =>
        obtain ⟨o, ho, -⟩ := catchBlock_ok host error { sent := ([] : List OutboundEmail) ++ [mail] }
        simp only [ho, sendError_sent]
        rfl
  · rw [if_neg hv, postSend_of_not_passes host body {} hv]
    rfl

/-- Whenever the template literal does not throw (in particular when the
validation URL is a string), the handler completes with exactly one response,
whose status is among 200, 400, 401, 500, 502, 504, with ok true exactly for
200, 200 exactly for a valid request whose delivery call resolves, and 400
exactly for a request that fails validation. -/
theorem one_response_unless_template_throws (host : Host) (body : RequestBody)
    (mail : OutboundEmail) (hm : welcomeEmail host body = .ok mail) :
    ∃ r, (postSend host body {}).1 = .ok () ∧
      (postSend host body {}).2.responses = [r] ∧
      (r.status = 200 ∨ r.status = 400 ∨ r.status = 401 ∨ r.status = 500 ∨
        r.status = 502 ∨ r.status = 504) ∧
      (r.body.get "ok" = .bool true ∨ r.body.get "ok" = .bool false) ∧
      (r.body.get "ok" = .bool true ↔ r.status = 200) ∧
      (r.status = 200 ↔ passesValidation body ∧ ∃ info, host.sendMail mail = .ok info) ∧
      (r.status = 400 ↔ ¬ passesValidation body) := by
  by_cases hv : passesValidation body
  · rw [postSend_of_mail host body {} mail hv hm]
    cases hs : host.sendMail mail with
    | ok info =>
      refine ⟨_, rfl, rfl, Or.inl rfl, Or.inl ?_, ?_, ?_, ?_⟩
      · simp [toJSON, toJSONProps, JSValue.get, lookupProp]
      · simp [toJSON, toJSONProps, JSValue.get, lookupProp]
      · simp [hv]
      · simp [hv]
    | error error =>
      obtain ⟨o, ho, hstatus, -⟩ :=
        catchBlock_ok host error { sent := ([] : List OutboundEmail) ++ [mail] }
      obtain ⟨r, hr, -, -, hrs, hok, -⟩ :=
        sendError_responses o { sent := ([] : List OutboundEmail) ++ [mail] }
      simp only [ho]
      refine ⟨r, trivial, hr, ?_, Or.inr hok, ?_, ?_, ?_⟩
      · rw [hrs]; tauto
      · rw [hok, hrs]
        constructor
        · intro c; simp at c
        · intro c; rw [c] at hstatus; simp at hstatus
      · rw [hrs]
        constructor
        · intro c; rw [c] at hstatus; simp at hstatus
        · intro c; simp at c
      · rw [hrs]
        constructor
        · intro c; rw [c] at hstatus; simp at hstatus
        · intro c; exact absurd hv c
  · rw [postSend_of_not_passes host body {} hv]
    obtain ⟨r, hr, -, -, hrs, hok, -⟩ :=
      sendError_responses
        { code := "VALIDATION_ERROR",
          message := if body.to_.truthy then "El campo 'validationUrl' es obligatorio"
                     else "El campo 'to' es obligatorio",
          status := 400 } {}
    refine ⟨r, rfl, hr, Or.inr (Or.inl hrs), Or.inr hok, ?_, ?_, ?_⟩
    · rw [hok, hrs]; simp
    · rw [hrs]; simp [hv]
    · rw [hrs]; simp [hv]

/-- For a valid request whose validation URL is the string u, the message
handed to the delivery call has the fixed texts around u unchanged as html, the
request's `to` and the constant subject. -/
theorem welcome_email_of_string_url (host : Host) (body : RequestBody) (u : String)
    (hv : passesValidation body) (hu : canonicalUrl body = .str u) :
    ∃ mail, (postSend host body {}).2.sent = [mail] ∧
      mail.html = welcomeHtmlBefore ++ u ++ welcomeHtmlAfter ∧
      mail.to_ = body.to_ ∧
      mail.subject = "Bienvenido al Centro Bíblico Alianza Comas" ∧
      (∃ a, welcomeHtmlBefore = a ++ "<a href=\"") ∧
      (∃ a b, welcomeHtmlAfter =
        "\"" ++ (a ++ "href=\"https://cebac-phi.vercel.app/login\"" ++ b)) := by
  refine ⟨{ sender := sender host.env, to_ := body.to_, subject := subject,
             html := welcomeHtmlBefore ++ u ++ welcomeHtmlAfter },
    ?_, rfl, rfl, rfl, ⟨_, rfl⟩, ⟨_, _, rfl⟩⟩
  rw [sent_log_eq, if_pos hv, welcomeEmail_of_string host body u hu]

/-- C7, at the request `{"to":"a@b.com","validationUrl":{"toString":1}}`: the
request passes the validation of lines 147-152, the template literal of lines
157-169 throws a `TypeError` before the `try`, and the log of send calls is
empty; so a request that passes validation has caused no send call. -/
theorem validated_request_without_send (host : Host) :
    passesValidation unconvertibleUrlBody ∧
    (postSend host unconvertibleUrlBody {}).1 =
      .error (typeError "Cannot convert object to primitive value") ∧
    (postSend host unconvertibleUrlBody {}).2.sent = [] ∧
    (postSend host unconvertibleUrlBody {}).2.sent.length ≠ 1 := by
  have hv : passesValidation unconvertibleUrlBody := by decide
  have hm : welcomeEmail host unconvertibleUrlBody =
      .error (typeError "Cannot convert object to primitive value") := rfl
  rw [postSend_of_throw host _ {} _ hv hm]
  exact ⟨hv, rfl, rfl, by decide⟩

/-- C8, at the request `{"to":"a@b.com","validationUrl":{"a":1}}`: the request
passes validation and its canonical validation URL is the object, yet the html
of the message handed to the delivery call has "[object Object]" between the
two fixed texts, and a delivered request echoes the object itself as
data.validationUrl. -/
theorem object_url_rewritten (host : Host) :
    passesValidation objectUrlBody ∧
    canonicalUrl objectUrlBody = .obj [("a", .num (.finite false 1 0))] ∧
    (∃ mail, (postSend host objectUrlBody {}).2.sent = [mail] ∧
      mail.html = welcomeHtmlBefore ++ "[object Object]" ++ welcomeHtmlAfter) ∧
    (∀ info r, host.sendMail
        { sender := sender host.env, to_ := .str "a@b.com", subject := subject,
          html := welcomeHtmlBefore ++ "[object Object]" ++ welcomeHtmlAfter } = .ok info →
      (postSend host objectUrlBody {}).2.responses = [r] →
      (r.body.get "data").get "validationUrl" = .obj [("a", .num (.finite false 1 0))]) := by
  have hv : passesValidation objectUrlBody := by decide
  have hm : welcomeEmail host objectUrlBody =
      .ok { sender := sender host.env, to_ := .str "a@b.com", subject := subject,
            html := welcomeHtmlBefore ++ "[object Object]" ++ welcomeHtmlAfter } := rfl
  refine ⟨hv, rfl,
    ⟨{ sender := sender host.env, to_ := .str "a@b.com", subject := subject,
       html := welcomeHtmlBefore ++ "[object Object]" ++ welcomeHtmlAfter }, ?_, rfl⟩, ?_⟩
  · rw [sent_log_eq, if_pos hv, hm]
  · intro info r hs hr
    rw [postSend_delivered host objectUrlBody _ info hv hm hs] at hr
    simp only [List.cons.injEq, and_true] at hr
    rw [← hr]
    exact data_get_validationUrl _ _ _ _

/-- C10, at the request `{"to":"a@b.com","validationUrl":{"toString":1}}`: the
handler throws the `TypeError` of the template literal and has written no
response; the world is untouched. -/
theorem no_response_when_template_throws (host : Host) :
    postSend host unconvertibleUrlBody {} =
      (.error (typeError "Cannot convert object to primitive value"), {}) ∧
    (postSend host unconvertibleUrlBody {}).2.responses = [] ∧
    ¬ ∃ r, (postSend host unconvertibleUrlBody {}).2.responses = [r] := by
  have hv : passesValidation unconvertibleUrlBody := by decide
  have hm : welcomeEmail host unconvertibleUrlBody =
      .error (typeError "Cannot convert object to primitive value") := rfl
  rw [postSend_of_throw host _ {} _ hv hm]
  exact ⟨rfl, rfl, fun ⟨_, h⟩ => by simp at h⟩

/-! ## The fallback of line 155 -/

theorem postSend_eq_withoutFallback (host : Host) (body : RequestBody) (w : World) :
    postSend host body w = postSendWithoutFallback host body w := by
  unfold postSend postSendWithoutFallback
  cases ht : body.to_.truthy
  · simp [ht]
  · cases hu : (orValue body.validationUrl body.validationurl).truthy
    · simp [ht, hu]
    · simp [finalValidationUrl_of_truthy host _ w hu]

theorem postSend_randomDraws (host : Host) (body : RequestBody) (w : World) :
    (postSend host body w).2.randomDraws = w.randomDraws := by
  by_cases hv : passesValidation body
  · cases hm : welcomeEmail host body with
    | error thrown => rw [postSend_of_throw host body w thrown hv hm]
    | ok mail =>
      rw [postSend_of_mail host body w mail hv hm]
      cases hs : host.sendMail mail with
      | ok info => rfl
      | error error =>
        obtain ⟨o, ho, -⟩ := catchBlock_ok host error { w with sent := w.sent ++ [mail] }
        simp only [ho, sendError_randomDraws]
  · rw [postSend_of_not_passes host body w hv]
    rfl

/-- C9: the fallback of line 155 never runs. Whenever the handler gets past the
two validation checks, `finalValidationUrl` is the provided URL and the world
is unchanged by its evaluation (no random draw, so no call of `generateToken`);
the handler equals the handler without the fallback on every input; it leaves
the number of random draws unchanged; and its result is the same for every
value of `VALIDATION_BASE_URL` and every source of random text. -/
theorem fallback_is_dead_code (host : Host) (body : RequestBody) (w : World) :
    (body.to_.truthy = true →
      (orValue body.validationUrl body.validationurl).truthy = true →
      finalValidationUrl host (orValue body.validationUrl body.validationurl) w =
        (orValue body.validationUrl body.validationurl, w)) ∧
    postSend host body w = postSendWithoutFallback host body w ∧
    (postSend host body w).2.randomDraws = w.randomDraws ∧
    ∀ (base : Option String) (random : Nat → String),
      postSend { host with env := { host.env with VALIDATION_BASE_URL := base },
                           random36 := random } body w =
        postSend host body w := by
  refine ⟨fun _ hu => finalValidationUrl_of_truthy host _ w hu,
    postSend_eq_withoutFallback host body w, postSend_randomDraws host body w, ?_⟩
  intro base random
  rw [postSend_eq_withoutFallback, postSend_eq_withoutFallback]
  rfl

/-- A run of C9: on the scenario request the provided URL is final, and a host
with another base URL and another random text gives the same result. -/
theorem fallback_is_dead_code_witness :
    exampleBody.to_.truthy = true ∧
    (orValue exampleBody.validationUrl exampleBody.validationurl).truthy = true ∧
    finalValidationUrl (exampleHost (.ok exampleInfo))
        (orValue exampleBody.validationUrl exampleBody.validationurl) {} =
      (.str "https://x/y", {}) ∧
    postSend { exampleHost (.ok exampleInfo) with
               env := { (exampleHost (.ok exampleInfo)).env with
                        VALIDATION_BASE_URL := some "https://other/base" },
               random36 := fun _ => "0.zzzzzzzzzz" } exampleBody {} =
      postSend (exampleHost (.ok exampleInfo)) exampleBody {} :=
  ⟨by decide, by decide,
    (fallback_is_dead_code (exampleHost (.ok exampleInfo)) exampleBody {}).1
      (by decide) (by decide),
    (fallback_is_dead_code (exampleHost (.ok exampleInfo)) exampleBody {}).2.2.2
      (some "https://other/base") (fun _ => "0.zzzzzzzzzz")⟩

/-! ## Production mode -/

theorem postSend_responses_production (host : Host) (body : RequestBody) (mail : OutboundEmail)
    (error : JSValue)
    (hp : host.env.NODE_ENV = some "production") (hv : passesValidation body)
    (hm : welcomeEmail host body = .ok mail)
    (hf : host.sendMail mail = .error error) :
    ∃ m, mapEmailError error = .ok m ∧
      (postSend host body {}).2.responses =
        [{ status := m.status,
           body := .obj [("ok", .bool false), ("code", .str m.code),
                         ("message", .str m.message)] }] := by
  obtain ⟨m, hmap, -⟩ := mapEmailError_spec error
  refine ⟨m, hmap, ?_⟩
  rw [postSend_of_mail host body {} mail hv hm, hf]
  simp only [catchBlock_eq host error _ m hmap, hp, if_true]
  simp [sendError, resStatusJson, toJSON, toJSONProps]

/-- C6: in production mode (`NODE_ENV` is 'production') every response the
handler writes, for every body and every behaviour of the delivery call, is a
document without a `details` key, and a handler that completes has written
exactly one; the global error middleware answers every error with the
three-key envelope of `UNHANDLED_ERROR`, without `details`; and two delivery
failures whose errors agree on every key other than `message` produce the same
responses. -/
theorem production_omits_details (host : Host) (body : RequestBody)
    (hp : host.env.NODE_ENV = some "production") :
    (∀ r ∈ (postSend host body {}).2.responses, r.body.hasKey "details" = false) ∧
    ((postSend host body {}).1 = .ok () →
      ∃ r, (postSend host body {}).2.responses = [r] ∧ r.body.hasKey "details" = false) ∧
    (∀ err, errorMiddleware host.env err {} =
      (.ok (), { responses :=
        [{ status := 500,
           body := .obj [("ok", .bool false), ("code", .str "UNHANDLED_ERROR"),
                         ("message", .str "Error no manejado")] }] })) ∧
    (JSValue.obj [("ok", .bool false), ("code", .str "UNHANDLED_ERROR"),
                  ("message", .str "Error no manejado")]).hasKey "details" = false ∧
    (∀ (other : Host) (mail1 mail2 : OutboundEmail) (e1 e2 : JSValue),
      other.env.NODE_ENV = some "production" →
      welcomeEmail host body = .ok mail1 → host.sendMail mail1 = .error e1 →
      welcomeEmail other body = .ok mail2 → other.sendMail mail2 = .error e2 →
      (∀ key, key ≠ "message" → e1.get key = e2.get key) →
      (postSend other body {}).2.responses = (postSend host body {}).2.responses) := by
  have main : (postSend host body {}).1 = .ok () ∧
        (∃ r, (postSend host body {}).2.responses = [r] ∧ r.body.hasKey "details" = false) ∨
      (postSend host body {}).1 ≠ .ok () ∧ (postSend host body {}).2.responses = [] := by
    by_cases hv : passesValidation body
    · cases hm : welcomeEmail host body with
      | error thrown =>
        rw [postSend_of_throw host body {} thrown hv hm]
        exact Or.inr ⟨by simp, rfl⟩
      | ok mail =>
        rw [postSend_of_mail host body {} mail hv hm]
        cases hs : host.sendMail mail with
        | ok info =>
          refine Or.inl ⟨rfl, _, rfl, ?_⟩
          simp [toJSON, toJSONProps, JSValue.hasKey, lookupProp]
        | error error =>
          obtain ⟨o, ho, -, hd⟩ :=
            catchBlock_ok host error { sent := ([] : List OutboundEmail) ++ [mail] }
          obtain ⟨r, hr, -, -, -, -, -, -, hk⟩ :=
            sendError_responses o { sent := ([] : List OutboundEmail) ++ [mail] }
          simp only [ho]
          exact Or.inl ⟨trivial, r, hr, hk (hd hp)⟩
    · rw [postSend_of_not_passes host body {} hv]
      obtain ⟨r, hr, -, -, -, -, -, -, hk⟩ :=
        sendError_responses
          { code := "VALIDATION_ERROR",
            message := if body.to_.truthy then "El campo 'validationUrl' es obligatorio"
                       else "El campo 'to' es obligatorio",
            status := 400 } {}
      exact Or.inl ⟨rfl, r, hr, hk rfl⟩
  refine ⟨?_, ?_, ?_, rfl, ?_⟩
  · rcases main with ⟨-, r, hr, hk⟩ | ⟨-, hnil⟩
    · intro x hx
      rw [hr] at hx
      rw [List.mem_singleton.1 hx]
      exact hk
    · intro x hx
      rw [hnil] at hx
      simp at hx
  · intro hok
    rcases main with ⟨-, h⟩ | ⟨hne, -⟩
    · exact h
    · exact absurd hok hne
  · intro err
    simp [errorMiddleware, hp, sendError, resStatusJson, toJSON, toJSONProps]
  · intro other mail1 mail2 e1 e2 hpo hm1 h1 hm2 h2 hdiff
    by_cases hv : passesValidation body
    · obtain ⟨m, hm, hr⟩ := postSend_responses_production host body mail1 e1 hp hv hm1 h1
      obtain ⟨n, hn, hs⟩ := postSend_responses_production other body mail2 e2 hpo hv hm2 h2
      have hmn : m = n := by
        have := mapEmailError_congr e1 e2 (hdiff "code" (by decide))
        rw [hm, hn] at this
        exact Except.ok.inj this
      rw [hr, hs, hmn]
    · rw [postSend_of_not_passes host body {} hv, postSend_of_not_passes other body {} hv]

/-- A run of C6: in production two authentication failures with different
messages give one and the same response, without `details`. -/
theorem production_omits_details_witness :
    (productionHost (.error (authError "Invalid login"))).env.NODE_ENV = some "production" ∧
    (postSend (productionHost (.error (authError "Invalid login"))) exampleBody {}).1 = .ok () ∧
    (∃ r, (postSend (productionHost (.error (authError "Invalid login"))) exampleBody {}).2.responses
        = [r] ∧ r.body.hasKey "details" = false) ∧
    (postSend (productionHost (.error (authError "Username and Password not accepted")))
        exampleBody {}).2.responses =
      (postSend (productionHost (.error (authError "Invalid login"))) exampleBody {}).2.responses :=
  ⟨rfl, rfl,
    (production_omits_details (productionHost (.error (authError "Invalid login")))
      exampleBody rfl).2.1 rfl,
    (production_omits_details (productionHost (.error (authError "Invalid login")))
      exampleBody rfl).2.2.2.2
      (productionHost (.error (authError "Username and Password not accepted")))
      (exampleMail "https://x/y") (exampleMail "https://x/y")
      (authError "Invalid login") (authError "Username and Password not accepted")
      rfl rfl rfl rfl rfl
      (fun key hk => by
        have hk2 : ¬ "message" = key := fun c => hk c.symm
        simp [authError, JSValue.get, lookupProp, hk2])⟩

end UnifyMail
